import Mathlib

namespace Pcap

/-- Error taxonomy of the pcap core, following section 7 of the design
specification. The Go source reports these as wrapped error values or as
runtime panics; section 9 of the specification turns every panic on
wire-controlled data into a typed recoverable error, which this embedding
models with an Except value. -/
inductive PcapError where
  | invalidAddress
  | unsupportedLayer
  | unsupported
  | serializationError
  | missingNetworkLayer
  | missingTransportLayer
  | unsupportedNetworkLayerType
  | unsupportedIPVersion
  | unsupportedICMPType (t : Nat)
  | wrongEmbeddedType
  | queryNotSupported
  | unsupportedEmbeddedType
  | noEmbeddedPacket
deriving DecidableEq, Repr

/-- Translation of the To4 method of net.IP from the Go standard library
(net/ip.go), which layer.go calls on source and destination addresses. An
address is a byte list; To4 yields the 4-byte form when the address is 4
bytes long, or when it is a 16-byte IPv4-mapped address
(10 zero bytes, then 0xff 0xff, then the 4 address bytes); otherwise nil. -/
def ipTo4 (ip : List Nat) : Option (List Nat) :=
  if ip.length = 4 then some ip
  else if ip.length = 16 ∧ ip.take 10 = List.replicate 10 0 ∧
      ip.get? 10 = some 255 ∧ ip.get? 11 = some 255 then
    some (ip.drop 12)
  else none

/-- Translation of the Type method of gopacket ICMPv4TypeCode: the type is
the high byte of the 16-bit type-and-code value. -/
def typeOfTypeCode (typeCode : Nat) : Nat := typeCode / 256 % 256

/-- Translation of the query arm of the type switches in layer.go
(parseICMPv4Layer, isQuery, isEmbQuery): the ten ICMPv4 query types,
by their RFC 792 type numbers as fixed in gopacket
(echo reply 0, echo request 8, router advertisement 9,
router solicitation 10, timestamp request 13, timestamp reply 14,
information request 15, information reply 16, address mask request 17,
address mask reply 18). -/
def isQueryType (t : Nat) : Bool :=
  t == 0 || t == 8 || t == 9 || t == 10 || t == 13 || t == 14 ||
    t == 15 || t == 16 || t == 17 || t == 18

/-- Translation of the error arm of the type switches in layer.go: the five
ICMPv4 error types (destination unreachable 3, source quench 4, redirect 5,
time exceeded 11, parameter problem 12). -/
def isErrorType (t : Nat) : Bool :=
  t == 3 || t == 4 || t == 5 || t == 11 || t == 12

/-- Model of a parsed gopacket ICMPv4 layer: the 16-bit type-and-code value,
checksum, identifier, sequence number and the payload bytes that follow the
8-byte header. -/
structure ICMPv4Layer where
  typeCode : Nat
  checksum : Nat
  id : Nat
  seq : Nat
  payload : List Nat
deriving DecidableEq, Repr

/-- Model of a gopacket IPv4 layer value as read or written by layer.go. -/
structure IPv4Layer where
  version : Nat
  ihl : Nat
  tos : Nat
  length : Nat
  ipId : Nat
  flags : Nat
  fragOffset : Nat
  ttl : Nat
  protocol : Nat
  checksum : Nat
  srcIP : List Nat
  dstIP : List Nat
deriving DecidableEq, Repr

/-- Embedded TCP header value carried inside an ICMPv4 error payload. Per
section 4.4 of the specification only the source port, destination port and
sequence number are guaranteed present in the truncated 8-byte form. -/
structure EmbTCPLayer where
  srcPort : Nat
  dstPort : Nat
  seq : Nat
deriving DecidableEq, Repr

/-- Embedded UDP header value carried inside an ICMPv4 error payload. -/
structure EmbUDPLayer where
  srcPort : Nat
  dstPort : Nat
  length : Nat
  checksum : Nat
deriving DecidableEq, Repr

/-- Closed variant of the layers a decoded embedded packet can contain,
replacing the open gopacket.Layer interface value stored in the indicator. -/
inductive PLayer where
  | ipv4 (h : IPv4Layer)
  | tcp (t : EmbTCPLayer)
  | udp (u : EmbUDPLayer)
  | icmpv4 (m : ICMPv4Layer)
  | unknown (protocol : Nat) (data : List Nat)
deriving DecidableEq, Repr

/-- Discriminant of a layer value, standing for gopacket.LayerType. -/
inductive LayerType where
  | ipv4
  | tcp
  | udp
  | icmpv4
  | unknown (protocol : Nat)
deriving DecidableEq, Repr

/-- Discriminant attached to each layer variant. -/
def layerTypeOf : PLayer → LayerType
  | .ipv4 _ => .ipv4
  | .tcp _ => .tcp
  | .udp _ => .udp
  | .icmpv4 _ => .icmpv4
  | .unknown p _ => .unknown p

/-- Byte of a byte list at an index, 0 past the end. -/
def byteAt (data : List Nat) (i : Nat) : Nat := (data.get? i).getD 0

/-- Big-endian 16-bit value at an index of a byte list. -/
def word16At (data : List Nat) (i : Nat) : Nat :=
  byteAt data i * 256 + byteAt data (i + 1)

/-- Big-endian 32-bit value at an index of a byte list. -/
def word32At (data : List Nat) (i : Nat) : Nat :=
  ((byteAt data i * 256 + byteAt data (i + 1)) * 256 + byteAt data (i + 2)) * 256 +
    byteAt data (i + 3)

/-- Modelled from the spec: decoding of the embedded IPv4 header out of the
payload of an ICMPv4 error message. The decoding itself is performed by the
gopacket library (gopacket.NewPacket with first layer LayerTypeIPv4), whose
code is not under src/; section 4.4 of the specification describes it as
decoding the payload as an IPv4 packet, failing when no complete IPv4 header
is present. A header is complete when at least 20 bytes are available, the
header length field is at least 5 words and that many words are available.
Field layout follows the IPv4 wire format fixed in section 6. -/
def decodeEmbIPv4Header (data : List Nat) : Option IPv4Layer :=
  let ihl := byteAt data 0 % 16
  if 20 ≤ data.length ∧ 5 ≤ ihl ∧ ihl * 4 ≤ data.length then
    some { version := byteAt data 0 / 16 % 16
           ihl := ihl
           tos := byteAt data 1
           length := word16At data 2
           ipId := word16At data 4
           flags := word16At data 6 / 8192
           fragOffset := word16At data 6 % 8192
           ttl := byteAt data 8
           protocol := byteAt data 9
           checksum := word16At data 10
           srcIP := (data.drop 12).take 4
           dstIP := (data.drop 16).take 4 }
  else none

/-- Modelled from the spec: decoding of the embedded transport header that
follows the embedded IPv4 header, performed by gopacket (not under src/).
Section 4.4 of the specification requires at least the 8 bytes of the
original transport header that an ICMPv4 error carries per RFC 792
(fewer bytes mean the transport layer is missing), dispatches on the
embedded protocol number (TCP 6, UDP 17, ICMPv4 1), and for the truncated
8-byte form guarantees source port, destination port and, for TCP, the
sequence number. Other protocol numbers yield a layer of another
discriminant, which the NAT resolver later rejects. -/
def decodeEmbTransport (protocol : Nat) (rest : List Nat) : Option PLayer :=
  if rest.length < 8 then none
  else if protocol = 6 then
    some (.tcp { srcPort := word16At rest 0, dstPort := word16At rest 2, seq := word32At rest 4 })
  else if protocol = 17 then
    some (.udp { srcPort := word16At rest 0, dstPort := word16At rest 2,
                 length := word16At rest 4, checksum := word16At rest 6 })
  else if protocol = 1 then
    some (.icmpv4 { typeCode := word16At rest 0, checksum := word16At rest 2,
                    id := word16At rest 4, seq := word16At rest 6, payload := rest.drop 8 })
  else some (.unknown protocol rest)

/-- Modelled from the spec: the layer list produced by decoding an ICMPv4
error payload as an IPv4 packet, standing for the Layers() list of the
gopacket packet built in parseICMPv4Layer (layer.go line 211). The list is
empty when no complete IPv4 header is present, and contains only the IPv4
layer when fewer than the minimum transport bytes follow it. -/
def newPacketIPv4 (data : List Nat) : List PLayer :=
  match decodeEmbIPv4Header data with
  | none => []
  | some h =>
    match decodeEmbTransport h.protocol (data.drop (h.ihl * 4)) with
    | none => [.ipv4 h]
    | some t => [.ipv4 h, t]

/-- Translation of the icmpv4Indicator struct of layer.go (line 178). The
embedded fields are nil pointers in Go for a query message, hence Option
here. The Go struct also stores embTransportLayerType, which
parseICMPv4Layer always sets to the LayerType of embTransportLayer; the
embedding derives it through the function embTransportLayerType below. -/
structure ICMPv4Indicator where
  layer : ICMPv4Layer
  embIPv4Layer : Option IPv4Layer
  embTransportLayer : Option PLayer
deriving DecidableEq, Repr

/-- Discriminant of the embedded transport layer of an indicator, standing
for the embTransportLayerType field of the Go struct. -/
def embTransportLayerType (indicator : ICMPv4Indicator) : Option LayerType :=
  indicator.embTransportLayer.map layerTypeOf

/-- Translation of parseICMPv4Layer (layer.go line 185): a query type yields
an indicator with no embedded layers; an error type decodes the payload as
an IPv4 packet, requires at least two decoded layers, requires the first to
be IPv4 with version 4, and records the embedded network and transport
layers; any other type fails. -/
def parseICMPv4Layer (layer : ICMPv4Layer) : Except PcapError ICMPv4Indicator :=
  let t := typeOfTypeCode layer.typeCode
  if isQueryType t then
    .ok { layer := layer, embIPv4Layer := none, embTransportLayer := none }
  else if isErrorType t then
    match newPacketIPv4 layer.payload with
    | [] => .error .missingNetworkLayer
    | [_] => .error .missingTransportLayer
    | networkLayer :: transportLayer :: _ =>
      match networkLayer with
      | .ipv4 embIPv4Layer =>
        if embIPv4Layer.version ≠ 4 then .error .unsupportedIPVersion
        else .ok { layer := layer, embIPv4Layer := some embIPv4Layer,
                   embTransportLayer := some transportLayer }
      | _ => .error .unsupportedNetworkLayerType
  else .error (.unsupportedICMPType t)

/-- Classification of an ICMPv4 message by the 16-bit type-and-code value,
named classify in section 4.3 of the specification: query for the ten query
types, error for the five error types, a hard failure otherwise. It is the
classification applied identically by the three type switches of layer.go
(parseICMPv4Layer, isQuery, isEmbQuery). -/
inductive ICMPClass where
  | query
  | errorMsg
deriving DecidableEq, Repr

/-- Classifier over the type-and-code value; see ICMPClass. -/
def classify (typeCode : Nat) : Except PcapError ICMPClass :=
  let t := typeOfTypeCode typeCode
  if isQueryType t then .ok .query
  else if isErrorType t then .ok .errorMsg
  else .error (.unsupportedICMPType t)

/-- Translation of the isQuery method (layer.go line 251): true for query
types, false for error types; the Go default arm panics on any other type,
modelled as a typed error per section 9 of the specification. -/
def isQuery (indicator : ICMPv4Indicator) : Except PcapError Bool :=
  let t := typeOfTypeCode indicator.layer.typeCode
  if isQueryType t then .ok true
  else if isErrorType t then .ok false
  else .error (.unsupportedICMPType t)

/-- Translation of embSrcIP (layer.go line 276); a nil embedded pointer in
Go, possible only for a query indicator, is modelled as the NoEmbeddedPacket
error of section 7 of the specification. -/
def embSrcIP (indicator : ICMPv4Indicator) : Except PcapError (List Nat) :=
  match indicator.embIPv4Layer with
  | some h => .ok h.srcIP
  | none => .error .noEmbeddedPacket

/-- Translation of embDstIP (layer.go line 280). -/
def embDstIP (indicator : ICMPv4Indicator) : Except PcapError (List Nat) :=
  match indicator.embIPv4Layer with
  | some h => .ok h.dstIP
  | none => .error .noEmbeddedPacket

/-- Translation of embId (layer.go line 312): the identifier of the embedded
ICMPv4 layer; the Go default arm panics when the embedded transport is not
ICMPv4, modelled as the WrongEmbeddedType error. -/
def embId (indicator : ICMPv4Indicator) : Except PcapError Nat :=
  match indicator.embTransportLayer with
  | some (.icmpv4 m) => .ok m.id
  | some _ => .error .wrongEmbeddedType
  | none => .error .noEmbeddedPacket

/-- Translation of embSrcPort (layer.go line 321): the source port of the
embedded TCP or UDP layer; any other embedded discriminant panics in Go,
modelled as the WrongEmbeddedType error. -/
def embSrcPort (indicator : ICMPv4Indicator) : Except PcapError Nat :=
  match indicator.embTransportLayer with
  | some (.tcp t) => .ok t.srcPort
  | some (.udp u) => .ok u.srcPort
  | some _ => .error .wrongEmbeddedType
  | none => .error .noEmbeddedPacket

/-- Translation of embDstPort (layer.go line 332). -/
def embDstPort (indicator : ICMPv4Indicator) : Except PcapError Nat :=
  match indicator.embTransportLayer with
  | some (.tcp t) => .ok t.dstPort
  | some (.udp u) => .ok u.dstPort
  | some _ => .error .wrongEmbeddedType
  | none => .error .noEmbeddedPacket

/-- Translation of isEmbQuery (layer.go line 343): classifies the embedded
ICMPv4 type with the same rule as the outer classifier; calling it when the
embedded transport is not ICMPv4 dereferences a nil pointer in Go, modelled
as the WrongEmbeddedType error. -/
def isEmbQuery (indicator : ICMPv4Indicator) : Except PcapError Bool :=
  match indicator.embTransportLayer with
  | some (.icmpv4 m) =>
    let t := typeOfTypeCode m.typeCode
    if isQueryType t then .ok true
    else if isErrorType t then .ok false
    else .error (.unsupportedICMPType t)
  | some _ => .error .wrongEmbeddedType
  | none => .error .noEmbeddedPacket

/-- Modelled from the spec: the NATEndpoint variant of section 3 of the
specification. The Go types IPEndpoint, IP, IPPort and IPId named in
layer.go belong to this repository but are not under src/; the
specification fixes them as a closed variant over exactly three shapes. -/
inductive IPEndpoint where
  | IP (ip : List Nat)
  | IPPort (ip : List Nat) (port : Nat)
  | IPId (ip : List Nat) (id : Nat)
deriving DecidableEq, Repr

/-- Shape discriminant of a NAT endpoint, for stating shape agreement. -/
inductive EndpointShape where
  | addressOnly
  | addressPort
  | addressId
deriving DecidableEq, Repr

/-- Shape of an endpoint. -/
def shapeOf : IPEndpoint → EndpointShape
  | .IP _ => .addressOnly
  | .IPPort _ _ => .addressPort
  | .IPId _ _ => .addressId

/-- Address component of an endpoint. -/
def addrOf : IPEndpoint → List Nat
  | .IP ip => ip
  | .IPPort ip _ => ip
  | .IPId ip _ => ip

/-- Translation of natSrc (layer.go line 368): a query outer message fails
(a panic in Go, the QueryNotSupported error of the specification); otherwise
the embedded destination address is combined with the destination port for
an embedded TCP or UDP layer, with the embedded identifier for an embedded
ICMPv4 query, and alone for an embedded ICMPv4 error; any other embedded
discriminant fails with UnsupportedEmbeddedType. -/
def natSrc (indicator : ICMPv4Indicator) : Except PcapError IPEndpoint :=
  match isQuery indicator with
  | .error e => .error e
  | .ok true => .error .queryNotSupported
  | .ok false =>
    match embTransportLayerType indicator with
    | some .tcp | some .udp =>
      match embDstIP indicator, embDstPort indicator with
      | .ok ip, .ok port => .ok (.IPPort ip port)
      | .error e, _ => .error e
      | _, .error e => .error e
    | some .icmpv4 =>
      match isEmbQuery indicator with
      | .error e => .error e
      | .ok true =>
        match embDstIP indicator, embId indicator with
        | .ok ip, .ok i => .ok (.IPId ip i)
        | .error e, _ => .error e
        | _, .error e => .error e
      | .ok false =>
        match embDstIP indicator with
        | .ok ip => .ok (.IP ip)
        | .error e => .error e
    | _ => .error .unsupportedEmbeddedType

/-- Translation of natDst (layer.go line 396): the mirror image of natSrc,
reading the embedded source address, source port and identifier. -/
def natDst (indicator : ICMPv4Indicator) : Except PcapError IPEndpoint :=
  match isQuery indicator with
  | .error e => .error e
  | .ok true => .error .queryNotSupported
  | .ok false =>
    match embTransportLayerType indicator with
    | some .tcp | some .udp =>
      match embSrcIP indicator, embSrcPort indicator with
      | .ok ip, .ok port => .ok (.IPPort ip port)
      | .error e, _ => .error e
      | _, .error e => .error e
    | some .icmpv4 =>
      match isEmbQuery indicator with
      | .error e => .error e
      | .ok true =>
        match embSrcIP indicator, embId indicator with
        | .ok ip, .ok i => .ok (.IPId ip i)
        | .error e, _ => .error e
        | _, .error e => .error e
      | .ok false =>
        match embSrcIP indicator with
        | .ok ip => .ok (.IP ip)
        | .error e => .error e
    | _ => .error .unsupportedEmbeddedType

/-- Model of a gopacket TCP layer value as populated by the factory
functions of layer.go. The pseudoheader field models the back reference
installed by SetNetworkLayerForChecksum: the pair of source and destination
addresses of the owning IPv4 header, made an explicit value per section 9
of the specification. -/
structure TCPLayer where
  srcPort : Nat
  dstPort : Nat
  seq : Nat
  ack : Nat
  dataOffset : Nat
  flagFIN : Bool
  flagSYN : Bool
  flagRST : Bool
  flagPSH : Bool
  flagACK : Bool
  flagURG : Bool
  window : Nat
  checksum : Nat
  urgent : Nat
  pseudoheader : Option (List Nat × List Nat)
deriving DecidableEq, Repr

/-- Model of a gopacket UDP layer value as populated by the factory
functions of layer.go. -/
structure UDPLayer where
  srcPort : Nat
  dstPort : Nat
  length : Nat
  checksum : Nat
  pseudoheader : Option (List Nat × List Nat)
deriving DecidableEq, Repr

/-- Closed variant of the transport layers accepted by
createNetworkLayerIPv4, replacing the gopacket.TransportLayer interface; the
unknown variant stands for any other dynamic layer type and lands in the
default arm of the type switch. -/
inductive TransportLayer where
  | tcp (t : TCPLayer)
  | udp (u : UDPLayer)
  | unknown (tag : Nat)
deriving DecidableEq, Repr

/-- Unit type standing for the gopacket IPv6 layer, which
createNetworkLayerIPv6 never constructs. -/
inductive IPv6Layer where
  | mk
deriving DecidableEq, Repr

/-- Translation of createNetworkLayerIPv4 (layer.go line 74): both addresses
must be representable in 4-byte form, the protocol field is set from the
transport discriminant (TCP or UDP only), and the transport layer is bound
to the header addresses for later checksum computation (in Go a mutation of
the transport layer, here returned alongside the header). -/
def createNetworkLayerIPv4 (srcIP dstIP : List Nat) (ipId ttl : Nat)
    (transportLayer : TransportLayer) : Except PcapError (IPv4Layer × TransportLayer) :=
  if ipTo4 srcIP = none ∨ ipTo4 dstIP = none then .error .invalidAddress
  else
    let ipv4Layer : IPv4Layer :=
      { version := 4, ihl := 5, tos := 0, length := 0, ipId := ipId,
        flags := 2, fragOffset := 0, ttl := ttl, protocol := 0, checksum := 0,
        srcIP := srcIP, dstIP := dstIP }
    match transportLayer with
    | .tcp t =>
      .ok ({ ipv4Layer with protocol := 6 },
           .tcp { t with pseudoheader := some (srcIP, dstIP) })
    | .udp u =>
      .ok ({ ipv4Layer with protocol := 17 },
           .udp { u with pseudoheader := some (srcIP, dstIP) })
    | .unknown _ => .error .unsupportedLayer

/-- Translation of createNetworkLayerIPv6 (layer.go line 120): fails with
the invalid address error when either input has a 4-byte form, and
otherwise with the unsupported error; it never returns a layer. -/
def createNetworkLayerIPv6 (srcIP dstIP : List Nat) (transportLayer : TransportLayer) :
    Except PcapError IPv6Layer :=
  if ipTo4 srcIP ≠ none ∨ ipTo4 dstIP ≠ none then .error .invalidAddress
  else .error .unsupported

/-- Translation of the gopacket.SerializeOptions value built in serialize
and serializeRaw (layer.go lines 154 and 167). -/
structure SerializeOptions where
  computeChecksums : Bool
  fixLengths : Bool
deriving DecidableEq, Repr

/-- Closed variant of the serializable layers of this core: Ethernet, IPv4,
TCP, UDP, ICMPv4 and a raw payload. -/
inductive SLayer where
  | ethernet (srcMAC dstMAC : List Nat) (ethType : Nat)
  | ipv4 (h : IPv4Layer)
  | tcp (t : TCPLayer)
  | udp (u : UDPLayer)
  | icmpv4 (m : ICMPv4Layer)
  | payload (bytes : List Nat)
deriving DecidableEq, Repr

/-- Big-endian 2-byte encoding of a 16-bit value. -/
def byte2 (n : Nat) : List Nat := [n / 256 % 256, n % 256]

/-- Big-endian 4-byte encoding of a 32-bit value. -/
def byte4 (n : Nat) : List Nat :=
  [n / 16777216 % 256, n / 65536 % 256, n / 256 % 256, n % 256]

/-- Truncation or zero padding of an address to 4 bytes. -/
def pad4 (a : List Nat) : List Nat := a.take 4 ++ List.replicate (4 - a.length) 0

/-- Truncation or zero padding of a MAC address to 6 bytes. -/
def pad6 (a : List Nat) : List Nat := a.take 6 ++ List.replicate (6 - a.length) 0

/-- Accumulation of a byte list as big-endian 16-bit words, the first step
of the internet checksum; a trailing odd byte is padded with zero. -/
def sum16 : List Nat → Nat
  | [] => 0
  | [a] => a * 256
  | a :: b :: rest => a * 256 + b + sum16 rest

/-- End-around carry folding of a checksum accumulator into 16 bits. -/
def foldCarry (c : Nat) : Nat :=
  if h : 65535 < c then foldCarry (c / 65536 + c % 65536) else c
termination_by c
decreasing_by omega

/-- Internet checksum of a byte list: the complement of the end-around
carry sum of its big-endian 16-bit words. -/
def internetChecksum (data : List Nat) : Nat := 65535 - foldCarry (sum16 data)

/-- Checksum of a transport segment with the IPv4 pseudoheader of section 6
of the specification: source address, destination address, zero byte,
protocol and segment length, prepended for checksum computation only. -/
def transportChecksum (src dst : List Nat) (protocol : Nat) (data : List Nat) : Nat :=
  internetChecksum (pad4 src ++ pad4 dst ++ [0, protocol % 256] ++ byte2 data.length ++ data)

/-- Flag byte of a TCP header. -/
def tcpFlagsByte (t : TCPLayer) : Nat :=
  (if t.flagFIN then 1 else 0) + 2 * (if t.flagSYN then 1 else 0) +
    4 * (if t.flagRST then 1 else 0) + 8 * (if t.flagPSH then 1 else 0) +
    16 * (if t.flagACK then 1 else 0) + 32 * (if t.flagURG then 1 else 0)

/-- Modelled from the spec: serialization of one layer in front of already
serialized inner bytes, standing for the SerializeTo methods of gopacket,
whose code is not under src/. Wire layouts follow section 6 of the
specification (no header options, as fixed by the factory invariants).
When fixLengths is set, every length dependent field (IPv4 total length,
UDP length, TCP data offset) is recomputed from the final layout; when
computeChecksums is set, every checksum is recomputed from the final bytes
with the checksum field taken as zero, the transport checksums using the
bound pseudoheader and failing when the binding is missing. Without the
options every field is written exactly as populated. -/
def serializeToModel (opts : SerializeOptions) (l : SLayer) (payload : List Nat) :
    Except PcapError (List Nat) :=
  match l with
  | .ethernet srcMAC dstMAC ethType =>
    .ok (pad6 dstMAC ++ pad6 srcMAC ++ byte2 ethType ++ payload)
  | .payload bytes => .ok (bytes ++ payload)
  | .ipv4 h =>
    let totalLength := if opts.fixLengths then 20 + payload.length else h.length
    let pre := [h.version % 16 * 16 + h.ihl % 16, h.tos % 256] ++ byte2 totalLength ++
      byte2 h.ipId ++ byte2 (h.flags % 8 * 8192 + h.fragOffset % 8192) ++
      [h.ttl % 256, h.protocol % 256]
    let addrs := pad4 h.srcIP ++ pad4 h.dstIP
    let ck := if opts.computeChecksums then internetChecksum (pre ++ byte2 0 ++ addrs)
      else h.checksum
    .ok (pre ++ byte2 ck ++ addrs ++ payload)
  | .udp u =>
    let len := if opts.fixLengths then 8 + payload.length else u.length
    let hdr := byte2 u.srcPort ++ byte2 u.dstPort ++ byte2 len
    if opts.computeChecksums then
      match u.pseudoheader with
      | none => .error .serializationError
      | some (s, d) =>
        .ok (hdr ++ byte2 (transportChecksum s d 17 (hdr ++ byte2 0 ++ payload)) ++ payload)
    else .ok (hdr ++ byte2 u.checksum ++ payload)
  | .tcp t =>
    let dOff := if opts.fixLengths then 5 else t.dataOffset
    let hdr := byte2 t.srcPort ++ byte2 t.dstPort ++ byte4 t.seq ++ byte4 t.ack ++
      [dOff % 16 * 16, tcpFlagsByte t] ++ byte2 t.window
    let tail := byte2 t.urgent
    if opts.computeChecksums then
      match t.pseudoheader with
      | none => .error .serializationError
      | some (s, d) =>
        .ok (hdr ++ byte2 (transportChecksum s d 6 (hdr ++ byte2 0 ++ tail ++ payload)) ++
          tail ++ payload)
    else .ok (hdr ++ byte2 t.checksum ++ tail ++ payload)
  | .icmpv4 m =>
    let hdr := byte2 m.typeCode
    let tail := byte2 m.id ++ byte2 m.seq
    let ck := if opts.computeChecksums then internetChecksum (hdr ++ byte2 0 ++ tail ++ payload)
      else m.checksum
    .ok (hdr ++ byte2 ck ++ tail ++ payload)

/-- Modelled from the spec: gopacket.SerializeLayers over an ordered layer
stack, outermost first, serializing from the innermost layer outward. -/
def serializeLayersModel (opts : SerializeOptions) : List SLayer → Except PcapError (List Nat)
  | [] => .ok []
  | l :: rest =>
    match serializeLayersModel opts rest with
    | .error e => .error e
    | .ok payload => serializeToModel opts l payload

/-- Translation of serialize (layer.go line 152): serialization with both
ComputeChecksums and FixLengths set. -/
def serialize (stack : List SLayer) : Except PcapError (List Nat) :=
  serializeLayersModel { computeChecksums := true, fixLengths := true } stack

/-- Translation of serializeRaw (layer.go line 165): serialization with
empty options, recomputing nothing. -/
def serializeRaw (stack : List SLayer) : Except PcapError (List Nat) :=
  serializeLayersModel { computeChecksums := false, fixLengths := false } stack

/-- Field-faithful byte rendering of one layer, writing every field exactly
as populated, for comparison with the raw serialization mode. -/
def rawLayerBytes : SLayer → List Nat
  | .ethernet srcMAC dstMAC ethType => pad6 dstMAC ++ pad6 srcMAC ++ byte2 ethType
  | .payload bytes => bytes
  | .ipv4 h =>
    [h.version % 16 * 16 + h.ihl % 16, h.tos % 256] ++ byte2 h.length ++
      byte2 h.ipId ++ byte2 (h.flags % 8 * 8192 + h.fragOffset % 8192) ++
      [h.ttl % 256, h.protocol % 256] ++ byte2 h.checksum ++ pad4 h.srcIP ++ pad4 h.dstIP
  | .udp u => byte2 u.srcPort ++ byte2 u.dstPort ++ byte2 u.length ++ byte2 u.checksum
  | .tcp t =>
    byte2 t.srcPort ++ byte2 t.dstPort ++ byte4 t.seq ++ byte4 t.ack ++
      [t.dataOffset % 16 * 16, tcpFlagsByte t] ++ byte2 t.window ++ byte2 t.checksum ++
      byte2 t.urgent
  | .icmpv4 m => byte2 m.typeCode ++ byte2 m.checksum ++ byte2 m.id ++ byte2 m.seq

/-- Concatenated field-faithful rendering of a layer stack. -/
def rawRender (stack : List SLayer) : List Nat :=
  stack.foldr (fun l acc => rawLayerBytes l ++ acc) []

/-- Scrubbing of every checksum and length dependent field of a layer,
replacing them with zero while keeping all other fields. -/
def scrubLayer : SLayer → SLayer
  | .ethernet srcMAC dstMAC ethType => .ethernet srcMAC dstMAC ethType
  | .payload bytes => .payload bytes
  | .ipv4 h => .ipv4 { h with length := 0, checksum := 0 }
  | .udp u => .udp { u with length := 0, checksum := 0 }
  | .tcp t => .tcp { t with dataOffset := 0, checksum := 0 }
  | .icmpv4 m => .icmpv4 { m with checksum := 0 }

/-- IPv4 header bytes produced by the computing serialization mode in front
of a payload: total length recomputed as 20 plus the payload length and the
checksum recomputed over the final header bytes with a zeroed checksum
field. -/
def ipv4ComputedHeader (h : IPv4Layer) (p : List Nat) : List Nat :=
  let pre := [h.version % 16 * 16 + h.ihl % 16, h.tos % 256] ++ byte2 (20 + p.length) ++
    byte2 h.ipId ++ byte2 (h.flags % 8 * 8192 + h.fragOffset % 8192) ++
    [h.ttl % 256, h.protocol % 256]
  let addrs := pad4 h.srcIP ++ pad4 h.dstIP
  pre ++ byte2 (internetChecksum (pre ++ byte2 0 ++ addrs)) ++ addrs

/-- Example of section 8 of the specification: an ICMPv4 time-exceeded
message (type 11, code 0, type-and-code value 2816) embedding a UDP
datagram from 10.0.0.5 port 5000 to 8.8.8.8 port 53. -/
def exampleTimeExceededUDP : ICMPv4Layer :=
  { typeCode := 2816, checksum := 0, id := 0, seq := 0,
    payload := [69, 0, 0, 28, 0, 0, 0, 0, 64, 17, 0, 0, 10, 0, 0, 5, 8, 8, 8, 8,
                19, 136, 0, 53, 0, 8, 0, 0] }

/-- Indicator parsed from exampleTimeExceededUDP. -/
def exampleTimeExceededUDPIndicator : ICMPv4Indicator :=
  { layer := exampleTimeExceededUDP,
    embIPv4Layer := some
      { version := 4, ihl := 5, tos := 0, length := 28, ipId := 0, flags := 0,
        fragOffset := 0, ttl := 64, protocol := 17, checksum := 0,
        srcIP := [10, 0, 0, 5], dstIP := [8, 8, 8, 8] },
    embTransportLayer := some
      (.udp { srcPort := 5000, dstPort := 53, length := 8, checksum := 0 }) }

/-- Destination unreachable message embedding an ICMPv4 echo request with
identifier 99 sent from 1.2.3.4 to 5.6.7.8. -/
def exampleErrorEmbEchoRequest : ICMPv4Layer :=
  { typeCode := 768, checksum := 0, id := 0, seq := 0,
    payload := [69, 0, 0, 28, 0, 0, 0, 0, 64, 1, 0, 0, 1, 2, 3, 4, 5, 6, 7, 8,
                8, 0, 0, 0, 0, 99, 0, 1] }

/-- Indicator parsed from exampleErrorEmbEchoRequest. -/
def exampleErrorEmbEchoRequestIndicator : ICMPv4Indicator :=
  { layer := exampleErrorEmbEchoRequest,
    embIPv4Layer := some
      { version := 4, ihl := 5, tos := 0, length := 28, ipId := 0, flags := 0,
        fragOffset := 0, ttl := 64, protocol := 1, checksum := 0,
        srcIP := [1, 2, 3, 4], dstIP := [5, 6, 7, 8] },
    embTransportLayer := some
      (.icmpv4 { typeCode := 2048, checksum := 0, id := 99, seq := 1, payload := [] }) }

/-- Indicator built from an echo request query message. -/
def exampleQueryIndicator : ICMPv4Indicator :=
  { layer := { typeCode := 2048, checksum := 0, id := 7, seq := 1, payload := [] },
    embIPv4Layer := none, embTransportLayer := none }

/-- Indicator with the same outer type-and-code value as
exampleQueryIndicator but different checksum, identifier, sequence number
and payload. -/
def exampleQueryIndicatorVariant : ICMPv4Indicator :=
  { layer := { typeCode := 2048, checksum := 3, id := 8, seq := 2, payload := [1, 2] },
    embIPv4Layer := none, embTransportLayer := none }

/-- Indicator whose embedded transport is TCP, for the accessor mismatch
witness. -/
def exampleEmbTCPIndicator : ICMPv4Indicator :=
  { layer := { typeCode := 2816, checksum := 0, id := 0, seq := 0, payload := [] },
    embIPv4Layer := some
      { version := 4, ihl := 5, tos := 0, length := 28, ipId := 0, flags := 0,
        fragOffset := 0, ttl := 64, protocol := 6, checksum := 0,
        srcIP := [10, 0, 0, 1], dstIP := [10, 0, 0, 2] },
    embTransportLayer := some (.tcp { srcPort := 1, dstPort := 2, seq := 3 }) }

/-- Indicator embedding a nested ICMPv4 error, for the shape agreement
witness. -/
def exampleNestedErrorIndicator : ICMPv4Indicator :=
  { layer := { typeCode := 2816, checksum := 0, id := 0, seq := 0, payload := [] },
    embIPv4Layer := some
      { version := 4, ihl := 5, tos := 0, length := 28, ipId := 0, flags := 0,
        fragOffset := 0, ttl := 64, protocol := 1, checksum := 0,
        srcIP := [1, 1, 1, 1], dstIP := [2, 2, 2, 2] },
    embTransportLayer := some
      (.icmpv4 { typeCode := 768, checksum := 0, id := 0, seq := 0, payload := [] }) }

/-- Error message whose three payload bytes hold no complete IPv4 header. -/
def exampleShortError : ICMPv4Layer :=
  { typeCode := 768, checksum := 0, id := 0, seq := 0, payload := [1, 2, 3] }

/-- Destination unreachable message (type 3, any code below 256, arbitrary
outer checksum, identifier and sequence number) embedding a 20-byte IPv4
header with protocol TCP and the given header bytes, followed by the given
embedded transport bytes. -/
def mkDestUnreachTCP (code ock oid oseq tos l1 l2 i1 i2 f1 f2 ttl c1 c2
    s0 s1 s2 s3 d0 d1 d2 d3 : Nat) (tb : List Nat) : ICMPv4Layer :=
  { typeCode := 768 + code, checksum := ock, id := oid, seq := oseq,
    payload := [69, tos, l1, l2, i1, i2, f1, f2, ttl, 6, c1, c2,
                s0, s1, s2, s3, d0, d1, d2, d3] ++ tb }

/-- Embedded IPv4 header decoded out of a mkDestUnreachTCP payload. -/
def embHeaderOfDestUnreach (tos l1 l2 i1 i2 f1 f2 ttl c1 c2
    s0 s1 s2 s3 d0 d1 d2 d3 : Nat) : IPv4Layer :=
  { version := 4, ihl := 5, tos := tos, length := l1 * 256 + l2,
    ipId := i1 * 256 + i2, flags := (f1 * 256 + f2) / 8192,
    fragOffset := (f1 * 256 + f2) % 8192, ttl := ttl, protocol := 6,
    checksum := c1 * 256 + c2, srcIP := [s0, s1, s2, s3],
    dstIP := [d0, d1, d2, d3] }

/-- Embedded truncated TCP header decoded out of 8 transport bytes. -/
def embTCPOfBytes (tb : List Nat) : EmbTCPLayer :=
  { srcPort := word16At tb 0, dstPort := word16At tb 2, seq := word32At tb 4 }

/-- Indicator parsed from a mkDestUnreachTCP message with 8 embedded
transport bytes. -/
def destUnreachTCPIndicator (code ock oid oseq tos l1 l2 i1 i2 f1 f2 ttl c1 c2
    s0 s1 s2 s3 d0 d1 d2 d3 : Nat) (tb : List Nat) : ICMPv4Indicator :=
  { layer := mkDestUnreachTCP code ock oid oseq tos l1 l2 i1 i2 f1 f2
      ttl c1 c2 s0 s1 s2 s3 d0 d1 d2 d3 tb,
    embIPv4Layer := some (embHeaderOfDestUnreach tos l1 l2 i1 i2 f1 f2 ttl c1 c2
      s0 s1 s2 s3 d0 d1 d2 d3),
    embTransportLayer := some (PLayer.tcp (embTCPOfBytes tb)) }

/-- Decidable equality of Except values with decidable components, used to
evaluate the model on concrete inputs. -/
instance {e a : Type} [DecidableEq e] [DecidableEq a] : DecidableEq (Except e a) := fun x y =>
  match x, y with
  | .error x1, .error y1 =>
    if h : x1 = y1 then isTrue (by rw [h]) else isFalse (fun hh => by cases hh; exact h rfl)
  | .error _, .ok _ => isFalse (fun hh => by cases hh)
  | .ok _, .error _ => isFalse (fun hh => by cases hh)
  | .ok x1, .ok y1 =>
    if h : x1 = y1 then isTrue (by rw [h]) else isFalse (fun hh => by cases hh; exact h rfl)

/-- Membership description of the query type test. -/
theorem isQueryType_iff_mem (t : Nat) :
    isQueryType t = true ↔ t ∈ [0, 8, 9, 10, 13, 14, 15, 16, 17, 18] := by
  simp only [isQueryType, Bool.or_eq_true, beq_iff_eq, List.mem_cons, List.not_mem_nil, or_false]
  tauto

/-- Membership description of the error type test. -/
theorem isErrorType_iff_mem (t : Nat) :
    isErrorType t = true ↔ t ∈ [3, 4, 5, 11, 12] := by
  simp only [isErrorType, Bool.or_eq_true, beq_iff_eq, List.mem_cons, List.not_mem_nil, or_false]
  tauto

/-- Disjointness of the query and error type sets. -/
theorem isQueryType_of_isErrorType (t : Nat) (h : isErrorType t = true) :
    isQueryType t = false := by
  simp only [isErrorType, Bool.or_eq_true, beq_iff_eq] at h
  rcases h with ((((h | h) | h) | h) | h)
  all_goals subst h
  all_goals rfl

/-- Disjointness of the query and error type sets, other direction. -/
theorem isErrorType_of_isQueryType (t : Nat) (h : isQueryType t = true) :
    isErrorType t = false := by
  simp only [isQueryType, Bool.or_eq_true, beq_iff_eq] at h
  rcases h with (((((((((h | h) | h) | h) | h) | h) | h) | h) | h) | h)
  all_goals subst h
  all_goals rfl

/-- Inversion of a successful parse: the outer message is either a query
with no embedded layers, or an error whose payload decoded to an IPv4
layer of version 4 followed by a transport layer, both recorded in the
indicator. -/
theorem parse_ok_inv (l : ICMPv4Layer) (ind : ICMPv4Indicator)
    (hp : parseICMPv4Layer l = .ok ind) :
    ind.layer = l ∧
      ((isQueryType (typeOfTypeCode l.typeCode) = true ∧
          ind.embIPv4Layer = none ∧ ind.embTransportLayer = none) ∨
        (isQueryType (typeOfTypeCode l.typeCode) = false ∧
          isErrorType (typeOfTypeCode l.typeCode) = true ∧
          ∃ h tr rest, newPacketIPv4 l.payload = PLayer.ipv4 h :: tr :: rest ∧
            h.version = 4 ∧ ind.embIPv4Layer = some h ∧ ind.embTransportLayer = some tr)) := by
  cases hq : isQueryType (typeOfTypeCode l.typeCode) with
  | true =>
    simp only [parseICMPv4Layer, hq, if_true] at hp
    cases hp
    exact ⟨rfl, Or.inl ⟨rfl, rfl, rfl⟩⟩
  | false =>
    cases he : isErrorType (typeOfTypeCode l.typeCode) with
    | false => simp [parseICMPv4Layer, hq, he] at hp
    | true =>
      simp only [parseICMPv4Layer, hq, he, Bool.false_eq_true, if_false, if_true] at hp
      cases hnp : newPacketIPv4 l.payload with
      | nil => rw [hnp] at hp; cases hp
      | cons p0 rest0 =>
        cases rest0 with
        | nil => rw [hnp] at hp; cases hp
        | cons p1 rest1 =>
          rw [hnp] at hp
          cases p0 with
          | ipv4 h =>
            dsimp only at hp
            by_cases hv : h.version = 4
            · rw [if_neg (by simp [hv])] at hp
              cases hp
              exact ⟨rfl, Or.inr ⟨rfl, rfl, h, p1, rest1, rfl, hv, rfl, rfl⟩⟩
            · rw [if_pos hv] at hp
              cases hp
          | tcp t => cases hp
          | udp u => cases hp
          | icmpv4 m => cases hp
          | unknown p d => cases hp

/-- Claim C1: for every indicator parsed from an ICMPv4 error message whose
embedded transport is TCP or UDP, natSrc returns the endpoint made of the
embedded destination address and embedded destination port, and natDst
returns the endpoint made of the embedded source address and embedded
source port. -/
theorem natSrc_natDst_flip_tcp_udp (l : ICMPv4Layer) (ind : ICMPv4Indicator)
    (dip sip : List Nat) (dp sp : Nat)
    (hp : parseICMPv4Layer l = .ok ind)
    (ht : embTransportLayerType ind = some LayerType.tcp ∨
      embTransportLayerType ind = some LayerType.udp)
    (hdi : embDstIP ind = .ok dip) (hdp : embDstPort ind = .ok dp)
    (hsi : embSrcIP ind = .ok sip) (hsp : embSrcPort ind = .ok sp) :
    natSrc ind = .ok (IPEndpoint.IPPort dip dp) ∧
      natDst ind = .ok (IPEndpoint.IPPort sip sp) := by
  obtain ⟨hl, hcase⟩ := parse_ok_inv l ind hp
  rcases hcase with ⟨hq, hE, hT⟩ | ⟨hq, he, h, tr, rest, hnp, hv, hE, hT⟩
  · rcases ht with ht | ht <;> simp [embTransportLayerType, hT] at ht
  · have hq2 : isQuery ind = .ok false := by simp [isQuery, hl, hq, he]
    constructor
    · unfold natSrc
      rw [hq2]
      dsimp only
      rcases ht with ht | ht
      all_goals rw [ht]
      all_goals dsimp only
      all_goals rw [hdi, hdp]
    · unfold natDst
      rw [hq2]
      dsimp only
      rcases ht with ht | ht
      all_goals rw [ht]
      all_goals dsimp only
      all_goals rw [hsi, hsp]

/-- Witness for claim C1, the example of section 8 of the specification:
the time-exceeded message embedding a UDP datagram from 10.0.0.5 port 5000
to 8.8.8.8 port 53 parses to an indicator on which natSrc yields 8.8.8.8
port 53 and natDst yields 10.0.0.5 port 5000. -/
theorem natSrc_natDst_flip_tcp_udp_witness :
    parseICMPv4Layer exampleTimeExceededUDP = .ok exampleTimeExceededUDPIndicator ∧
      natSrc exampleTimeExceededUDPIndicator = .ok (IPEndpoint.IPPort [8, 8, 8, 8] 53) ∧
      natDst exampleTimeExceededUDPIndicator = .ok (IPEndpoint.IPPort [10, 0, 0, 5] 5000) :=
  ⟨by decide,
    (natSrc_natDst_flip_tcp_udp exampleTimeExceededUDP exampleTimeExceededUDPIndicator
      [8, 8, 8, 8] [10, 0, 0, 5] 53 5000 (by decide) (Or.inr (by decide)) (by decide)
      (by decide) (by decide) (by decide)).1,
    (natSrc_natDst_flip_tcp_udp exampleTimeExceededUDP exampleTimeExceededUDPIndicator
      [8, 8, 8, 8] [10, 0, 0, 5] 53 5000 (by decide) (Or.inr (by decide)) (by decide)
      (by decide) (by decide) (by decide)).2⟩

/-- Claim C2: for every indicator parsed from an ICMPv4 error message whose
embedded transport is itself ICMPv4, natSrc returns the embedded
destination address paired with the embedded identifier when the embedded
type is a query, and the embedded destination address alone when the
embedded type is an error; natDst is the mirror image using the embedded
source address. -/
theorem natSrc_natDst_emb_icmpv4 (l : ICMPv4Layer) (ind : ICMPv4Indicator)
    (dip sip : List Nat) (i : Nat)
    (hp : parseICMPv4Layer l = .ok ind)
    (ht : embTransportLayerType ind = some LayerType.icmpv4)
    (hdi : embDstIP ind = .ok dip) (hsi : embSrcIP ind = .ok sip)
    (hid : embId ind = .ok i) :
    (isEmbQuery ind = .ok true →
      natSrc ind = .ok (IPEndpoint.IPId dip i) ∧
        natDst ind = .ok (IPEndpoint.IPId sip i)) ∧
    (isEmbQuery ind = .ok false →
      natSrc ind = .ok (IPEndpoint.IP dip) ∧
        natDst ind = .ok (IPEndpoint.IP sip)) := by
  obtain ⟨hl, hcase⟩ := parse_ok_inv l ind hp
  rcases hcase with ⟨hq, hE, hT⟩ | ⟨hq, he, h, tr, rest, hnp, hv, hE, hT⟩
  · simp [embTransportLayerType, hT] at ht
  · have hq2 : isQuery ind = .ok false := by simp [isQuery, hl, hq, he]
    constructor
    · intro hEq
      constructor
      · unfold natSrc
        rw [hq2]; dsimp only; rw [ht]; dsimp only; rw [hEq]; dsimp only
        rw [hdi, hid]
      · unfold natDst
        rw [hq2]; dsimp only; rw [ht]; dsimp only; rw [hEq]; dsimp only
        rw [hsi, hid]
    · intro hEq
      constructor
      · unfold natSrc
        rw [hq2]; dsimp only; rw [ht]; dsimp only; rw [hEq]; dsimp only
        rw [hdi]
      · unfold natDst
        rw [hq2]; dsimp only; rw [ht]; dsimp only; rw [hEq]; dsimp only
        rw [hsi]

/-- Witness for claim C2: a destination unreachable message embedding an
ICMPv4 echo request with identifier 99 from 1.2.3.4 to 5.6.7.8 parses to an
indicator on which natSrc yields 5.6.7.8 with identifier 99 and natDst
yields 1.2.3.4 with identifier 99. -/
theorem natSrc_natDst_emb_icmpv4_witness :
    parseICMPv4Layer exampleErrorEmbEchoRequest = .ok exampleErrorEmbEchoRequestIndicator ∧
      natSrc exampleErrorEmbEchoRequestIndicator = .ok (IPEndpoint.IPId [5, 6, 7, 8] 99) ∧
      natDst exampleErrorEmbEchoRequestIndicator = .ok (IPEndpoint.IPId [1, 2, 3, 4] 99) :=
  ⟨by decide,
    ((natSrc_natDst_emb_icmpv4 exampleErrorEmbEchoRequest
      exampleErrorEmbEchoRequestIndicator [5, 6, 7, 8] [1, 2, 3, 4] 99 (by decide)
      (by decide) (by decide) (by decide) (by decide)).1 (by decide)).1,
    ((natSrc_natDst_emb_icmpv4 exampleErrorEmbEchoRequest
      exampleErrorEmbEchoRequestIndicator [5, 6, 7, 8] [1, 2, 3, 4] 99 (by decide)
      (by decide) (by decide) (by decide) (by decide)).1 (by decide)).2⟩

/-- Claim C3: on every indicator whose outer ICMPv4 message is a query
type, both natSrc and natDst fail with the recoverable QueryNotSupported
error and return no endpoint. -/
theorem natSrc_natDst_query_not_supported (ind : ICMPv4Indicator)
    (hq : isQueryType (typeOfTypeCode ind.layer.typeCode) = true) :
    natSrc ind = .error .queryNotSupported ∧
      natDst ind = .error .queryNotSupported := by
  have hq2 : isQuery ind = .ok true := by simp [isQuery, hq]
  constructor
  · unfold natSrc
    rw [hq2]
  · unfold natDst
    rw [hq2]

/-- Witness for claim C3: both NAT resolvers reject an indicator built from
an echo request message with the QueryNotSupported error. -/
theorem natSrc_natDst_query_not_supported_witness :
    natSrc exampleQueryIndicator = .error .queryNotSupported ∧
      natDst exampleQueryIndicator = .error .queryNotSupported :=
  natSrc_natDst_query_not_supported exampleQueryIndicator (by decide)

/-- Claim C4: the classifier is a total function of the type-and-code value
that yields query exactly for the ten enumerated query types and error
exactly for the five enumerated error types, yields the UnsupportedICMPType
failure for every type outside both sets, and depends on no other field of
the message. -/
theorem classify_total_enumerated :
    (∀ typeCode : Nat,
      (classify typeCode = .ok .query ↔
        typeOfTypeCode typeCode ∈ [0, 8, 9, 10, 13, 14, 15, 16, 17, 18]) ∧
      (classify typeCode = .ok .errorMsg ↔
        typeOfTypeCode typeCode ∈ [3, 4, 5, 11, 12]) ∧
      (typeOfTypeCode typeCode ∉ [0, 8, 9, 10, 13, 14, 15, 16, 17, 18] →
        typeOfTypeCode typeCode ∉ [3, 4, 5, 11, 12] →
        classify typeCode = .error (.unsupportedICMPType (typeOfTypeCode typeCode)))) ∧
    (∀ a b : ICMPv4Indicator, a.layer.typeCode = b.layer.typeCode →
      isQuery a = isQuery b) := by
  constructor
  · intro tc
    have hqm := isQueryType_iff_mem (typeOfTypeCode tc)
    have hem := isErrorType_iff_mem (typeOfTypeCode tc)
    cases hq : isQueryType (typeOfTypeCode tc) with
    | true =>
      have he0 : isErrorType (typeOfTypeCode tc) = false :=
        isErrorType_of_isQueryType _ hq
      rw [hq] at hqm
      rw [he0] at hem
      refine ⟨?_, ?_, ?_⟩
      · simp [classify, hq, ← hqm]
      · simp [classify, hq, ← hem]
      · intro hnq hne
        exact absurd (hqm.mp rfl) hnq
    | false =>
      rw [hq] at hqm
      cases he : isErrorType (typeOfTypeCode tc) with
      | true =>
        rw [he] at hem
        refine ⟨?_, ?_, ?_⟩
        · simp [classify, hq, he, ← hqm]
        · simp [classify, hq, he, ← hem]
        · intro hnq hne
          exact absurd (hem.mp rfl) hne
      | false =>
        rw [he] at hem
        refine ⟨?_, ?_, ?_⟩
        · simp [classify, hq, he, ← hqm]
        · simp [classify, hq, he, ← hem]
        · intro hnq hne
          simp [classify, hq, he]
  · intro a b hab
    simp [isQuery, hab]

/-- Witness for claim C4: type 2 (value 512 with code 0) lies outside both
sets and is rejected, and two indicators differing in every field except
the type-and-code value classify identically. -/
theorem classify_total_enumerated_witness :
    classify 512 = .error (.unsupportedICMPType 2) ∧
      isQuery exampleQueryIndicator = isQuery exampleQueryIndicatorVariant :=
  ⟨(classify_total_enumerated.1 512).2.2 (by decide) (by decide),
    classify_total_enumerated.2 exampleQueryIndicator exampleQueryIndicatorVariant rfl⟩

/-- Claim C5: createNetworkLayerIPv4 fails with InvalidAddress whenever
either address is not representable in 4-byte form, and
createNetworkLayerIPv6 always fails, with InvalidAddress when either input
is representable in 4-byte form and with Unsupported otherwise, never
returning a constructed layer. -/
theorem createNetworkLayer_address_validation :
    (∀ (srcIP dstIP : List Nat) (ipId ttl : Nat) (tr : TransportLayer),
      ipTo4 srcIP = none ∨ ipTo4 dstIP = none →
      createNetworkLayerIPv4 srcIP dstIP ipId ttl tr = .error .invalidAddress) ∧
    (∀ (srcIP dstIP : List Nat) (tr : TransportLayer),
      (ipTo4 srcIP ≠ none ∨ ipTo4 dstIP ≠ none →
        createNetworkLayerIPv6 srcIP dstIP tr = .error .invalidAddress) ∧
      (ipTo4 srcIP = none → ipTo4 dstIP = none →
        createNetworkLayerIPv6 srcIP dstIP tr = .error .unsupported) ∧
      ∃ e, createNetworkLayerIPv6 srcIP dstIP tr = .error e) := by
  constructor
  · intro s d i t tr h
    unfold createNetworkLayerIPv4
    rw [if_pos h]
  · intro s d tr
    refine ⟨?_, ?_, ?_⟩
    · intro h
      unfold createNetworkLayerIPv6
      rw [if_pos h]
    · intro h1 h2
      unfold createNetworkLayerIPv6
      rw [if_neg (by simp [h1, h2])]
    · by_cases h : ipTo4 s ≠ none ∨ ipTo4 d ≠ none
      · exact ⟨.invalidAddress, by unfold createNetworkLayerIPv6; rw [if_pos h]⟩
      · exact ⟨.unsupported, by unfold createNetworkLayerIPv6; rw [if_neg h]⟩

/-- Witness for claim C5: a 3-byte source address is rejected by the IPv4
builder, a 4-byte address is rejected by the IPv6 builder with
InvalidAddress, and two 16-byte addresses are rejected by the IPv6 builder
with Unsupported. -/
theorem createNetworkLayer_address_validation_witness :
    createNetworkLayerIPv4 [1, 2, 3] [4, 4, 4, 4] 1 64 (.unknown 0) =
        .error .invalidAddress ∧
      createNetworkLayerIPv6 [1, 2, 3, 4] (List.replicate 16 1) (.unknown 0) =
        .error .invalidAddress ∧
      createNetworkLayerIPv6 (List.replicate 16 1) (List.replicate 16 2) (.unknown 0) =
        .error .unsupported :=
  ⟨createNetworkLayer_address_validation.1 [1, 2, 3] [4, 4, 4, 4] 1 64 (.unknown 0)
      (Or.inl (by decide)),
    (createNetworkLayer_address_validation.2 [1, 2, 3, 4] (List.replicate 16 1)
      (.unknown 0)).1 (Or.inl (by decide)),
    ((createNetworkLayer_address_validation.2 (List.replicate 16 1) (List.replicate 16 2)
      (.unknown 0)).2).1 (by decide) (by decide)⟩

/-- Claim C9: every embedded layer accessor whose required type does not
match the embedded transport discriminant of the indicator fails with the
recoverable WrongEmbeddedType error and never returns a default value: the
port accessors require TCP or UDP, and the identifier and embedded query
accessors require ICMPv4. -/
theorem accessors_wrong_embedded_type (ind : ICMPv4Indicator) (t : LayerType)
    (ht : embTransportLayerType ind = some t) :
    (t ≠ LayerType.tcp → t ≠ LayerType.udp →
      embSrcPort ind = .error .wrongEmbeddedType ∧
      embDstPort ind = .error .wrongEmbeddedType) ∧
    (t ≠ LayerType.icmpv4 →
      embId ind = .error .wrongEmbeddedType ∧
      isEmbQuery ind = .error .wrongEmbeddedType) := by
  cases hE : ind.embTransportLayer with
  | none => simp [embTransportLayerType, hE] at ht
  | some pl =>
    have hlt : layerTypeOf pl = t := by
      simpa [embTransportLayerType, hE] using ht
    cases pl with
    | ipv4 h =>
      exact ⟨fun _ _ => ⟨by simp [embSrcPort, hE], by simp [embDstPort, hE]⟩,
        fun _ => ⟨by simp [embId, hE], by simp [isEmbQuery, hE]⟩⟩
    | tcp tl =>
      have hteq : LayerType.tcp = t := by simpa [layerTypeOf] using hlt
      exact ⟨fun h1 _ => absurd hteq.symm h1,
        fun _ => ⟨by simp [embId, hE], by simp [isEmbQuery, hE]⟩⟩
    | udp ul =>
      have hteq : LayerType.udp = t := by simpa [layerTypeOf] using hlt
      exact ⟨fun _ h2 => absurd hteq.symm h2,
        fun _ => ⟨by simp [embId, hE], by simp [isEmbQuery, hE]⟩⟩
    | icmpv4 m =>
      have hteq : LayerType.icmpv4 = t := by simpa [layerTypeOf] using hlt
      exact ⟨fun _ _ => ⟨by simp [embSrcPort, hE], by simp [embDstPort, hE]⟩,
        fun h3 => absurd hteq.symm h3⟩
    | unknown p dat =>
      exact ⟨fun _ _ => ⟨by simp [embSrcPort, hE], by simp [embDstPort, hE]⟩,
        fun _ => ⟨by simp [embId, hE], by simp [isEmbQuery, hE]⟩⟩

/-- Witness for claim C9: an indicator whose embedded transport is TCP is
rejected by the identifier and embedded query accessors with the
WrongEmbeddedType error. -/
theorem accessors_wrong_embedded_type_witness :
    embId exampleEmbTCPIndicator = .error .wrongEmbeddedType ∧
      isEmbQuery exampleEmbTCPIndicator = .error .wrongEmbeddedType :=
  (accessors_wrong_embedded_type exampleEmbTCPIndicator LayerType.tcp (by decide)).2
    (by decide)

/-- Claim C10: whenever natSrc and natDst both succeed on an indicator, the
two endpoints have the same shape, the natSrc address is the embedded
destination address, the natDst address is the embedded source address, and
in the identifier shape both endpoints carry the same embedded
identifier. -/
theorem natSrc_natDst_shape_agreement (ind : ICMPv4Indicator) (s d : IPEndpoint)
    (hs : natSrc ind = .ok s) (hd : natDst ind = .ok d) :
    shapeOf s = shapeOf d ∧ embDstIP ind = .ok (addrOf s) ∧
      embSrcIP ind = .ok (addrOf d) ∧
      (∀ ip i, s = .IPId ip i → ∃ ip2, d = .IPId ip2 i) := by
  unfold natSrc at hs
  unfold natDst at hd
  cases hq : isQuery ind with
  | error e => rw [hq] at hs; cases hs
  | ok b =>
    rw [hq] at hs hd
    cases b with
    | true => cases hs
    | false =>
      dsimp only at hs hd
      cases hT : embTransportLayerType ind with
      | none => rw [hT] at hs; cases hs
      | some lt =>
        rw [hT] at hs hd
        cases lt with
        | ipv4 => cases hs
        | unknown p => cases hs
        | tcp =>
          dsimp only at hs hd
          cases hdi : embDstIP ind with
          | error e =>
            rw [hdi] at hs
            cases hdp : embDstPort ind <;> rw [hdp] at hs <;> cases hs
          | ok dip =>
            rw [hdi] at hs
            cases hdp : embDstPort ind with
            | error e => rw [hdp] at hs; cases hs
            | ok dp =>
              rw [hdp] at hs
              cases hsi : embSrcIP ind with
              | error e =>
                rw [hsi] at hd
                cases hsp : embSrcPort ind <;> rw [hsp] at hd <;> cases hd
              | ok sip =>
                rw [hsi] at hd
                cases hsp : embSrcPort ind with
                | error e => rw [hsp] at hd; cases hd
                | ok sp =>
                  rw [hsp] at hd
                  cases hs
                  cases hd
                  exact ⟨rfl, rfl, rfl, fun ip i h => by cases h⟩
        | udp =>
          dsimp only at hs hd
          cases hdi : embDstIP ind with
          | error e =>
            rw [hdi] at hs
            cases hdp : embDstPort ind <;> rw [hdp] at hs <;> cases hs
          | ok dip =>
            rw [hdi] at hs
            cases hdp : embDstPort ind with
            | error e => rw [hdp] at hs; cases hs
            | ok dp =>
              rw [hdp] at hs
              cases hsi : embSrcIP ind with
              | error e =>
                rw [hsi] at hd
                cases hsp : embSrcPort ind <;> rw [hsp] at hd <;> cases hd
              | ok sip =>
                rw [hsi] at hd
                cases hsp : embSrcPort ind with
                | error e => rw [hsp] at hd; cases hd
                | ok sp =>
                  rw [hsp] at hd
                  cases hs
                  cases hd
                  exact ⟨rfl, rfl, rfl, fun ip i h => by cases h⟩
        | icmpv4 =>
          dsimp only at hs hd
          cases hEq : isEmbQuery ind with
          | error e => rw [hEq] at hs; cases hs
          | ok qb =>
            rw [hEq] at hs hd
            cases qb with
            | true =>
              dsimp only at hs hd
              cases hdi : embDstIP ind with
              | error e =>
                rw [hdi] at hs
                cases hid : embId ind <;> rw [hid] at hs <;> cases hs
              | ok dip =>
                rw [hdi] at hs
                cases hid : embId ind with
                | error e => rw [hid] at hs; cases hs
                | ok i0 =>
                  rw [hid] at hs
                  cases hsi : embSrcIP ind with
                  | error e => rw [hsi, hid] at hd; cases hd
                  | ok sip =>
                    rw [hsi, hid] at hd
                    cases hs
                    cases hd
                    exact ⟨rfl, rfl, rfl, fun ip i h => by
                      cases h; exact ⟨sip, rfl⟩⟩
            | false =>
              dsimp only at hs hd
              cases hdi : embDstIP ind with
              | error e => rw [hdi] at hs; cases hs
              | ok dip =>
                rw [hdi] at hs
                cases hsi : embSrcIP ind with
                | error e => rw [hsi] at hd; cases hd
                | ok sip =>
                  rw [hsi] at hd
                  cases hs
                  cases hd
                  exact ⟨rfl, rfl, rfl, fun ip i h => by cases h⟩

/-- Witness for claim C10: on an indicator embedding a nested ICMPv4 error,
both resolvers produce address-only endpoints, reading 2.2.2.2 for natSrc
and 1.1.1.1 for natDst. -/
theorem natSrc_natDst_shape_agreement_witness :
    shapeOf (IPEndpoint.IP [2, 2, 2, 2]) = shapeOf (IPEndpoint.IP [1, 1, 1, 1]) ∧
      embDstIP exampleNestedErrorIndicator = .ok (addrOf (IPEndpoint.IP [2, 2, 2, 2])) ∧
      embSrcIP exampleNestedErrorIndicator = .ok (addrOf (IPEndpoint.IP [1, 1, 1, 1])) ∧
      (∀ ip i, IPEndpoint.IP [2, 2, 2, 2] = .IPId ip i →
        ∃ ip2, IPEndpoint.IP [1, 1, 1, 1] = .IPId ip2 i) :=
  natSrc_natDst_shape_agreement exampleNestedErrorIndicator
    (IPEndpoint.IP [2, 2, 2, 2]) (IPEndpoint.IP [1, 1, 1, 1]) (by decide) (by decide)

/-- Inversion of the modelled packet decode when it produced at least two
layers: the first layer is the decoded embedded IPv4 header, the second is
the decoded embedded transport layer, and nothing follows them. -/
theorem newPacketIPv4_cons_inv (data : List Nat) (p0 p1 : PLayer) (rest : List PLayer)
    (hnp : newPacketIPv4 data = p0 :: p1 :: rest) :
    ∃ h, decodeEmbIPv4Header data = some h ∧ p0 = PLayer.ipv4 h ∧
      decodeEmbTransport h.protocol (data.drop (h.ihl * 4)) = some p1 ∧ rest = [] := by
  unfold newPacketIPv4 at hnp
  cases hdec : decodeEmbIPv4Header data with
  | none => rw [hdec] at hnp; cases hnp
  | some h =>
    rw [hdec] at hnp
    dsimp only at hnp
    cases hdt : decodeEmbTransport h.protocol (data.drop (h.ihl * 4)) with
    | none => rw [hdt] at hnp; simp at hnp
    | some t0 =>
      rw [hdt] at hnp
      injection hnp with h1 h2
      injection h2 with h3 h4
      exact ⟨h, rfl, h1.symm, by rw [h3] at hdt; exact hdt, h4.symm⟩

/-- Claim C6: on an ICMPv4 error-type message the parser decodes the
payload as an IPv4 packet and fails with MissingNetworkLayer when no
complete IPv4 header is present, with MissingTransportLayer when fewer than
the minimum 8 transport bytes follow the embedded header, and with
UnsupportedIPVersion when the decoded version field is not 4; on success it
records the embedded IPv4 header and the embedded transport discriminant,
TCP for protocol 6, UDP for protocol 17 and ICMPv4 for protocol 1. -/
theorem parse_error_message_decode (l : ICMPv4Layer)
    (he : isErrorType (typeOfTypeCode l.typeCode) = true) :
    (decodeEmbIPv4Header l.payload = none →
      parseICMPv4Layer l = .error .missingNetworkLayer) ∧
    (∀ h, decodeEmbIPv4Header l.payload = some h →
      (l.payload.drop (h.ihl * 4)).length < 8 →
      parseICMPv4Layer l = .error .missingTransportLayer) ∧
    (∀ h, decodeEmbIPv4Header l.payload = some h →
      8 ≤ (l.payload.drop (h.ihl * 4)).length → h.version ≠ 4 →
      parseICMPv4Layer l = .error .unsupportedIPVersion) ∧
    (∀ ind, parseICMPv4Layer l = .ok ind →
      ∃ h tr, decodeEmbIPv4Header l.payload = some h ∧
        ind.embIPv4Layer = some h ∧ h.version = 4 ∧
        ind.embTransportLayer = some tr ∧
        (h.protocol = 6 → embTransportLayerType ind = some LayerType.tcp) ∧
        (h.protocol = 17 → embTransportLayerType ind = some LayerType.udp) ∧
        (h.protocol = 1 → embTransportLayerType ind = some LayerType.icmpv4)) := by
  have hq := isQueryType_of_isErrorType _ he
  refine ⟨?_, ?_, ?_, ?_⟩
  · intro hdec
    have hnp : newPacketIPv4 l.payload = [] := by
      unfold newPacketIPv4
      rw [hdec]
    simp only [parseICMPv4Layer, hq, he, Bool.false_eq_true, if_false, if_true, hnp]
  · intro h hdec hlen
    have htr : decodeEmbTransport h.protocol (l.payload.drop (h.ihl * 4)) = none := by
      unfold decodeEmbTransport
      rw [if_pos hlen]
    have hnp : newPacketIPv4 l.payload = [PLayer.ipv4 h] := by
      unfold newPacketIPv4
      rw [hdec]
      dsimp only
      rw [htr]
    simp only [parseICMPv4Layer, hq, he, Bool.false_eq_true, if_false, if_true, hnp]
  · intro h hdec hlen hv
    obtain ⟨tr, htr⟩ : ∃ tr,
        decodeEmbTransport h.protocol (l.payload.drop (h.ihl * 4)) = some tr := by
      unfold decodeEmbTransport
      rw [if_neg (by omega)]
      by_cases h6 : h.protocol = 6
      · rw [if_pos h6]; exact ⟨_, rfl⟩
      · rw [if_neg h6]
        by_cases h17 : h.protocol = 17
        · rw [if_pos h17]; exact ⟨_, rfl⟩
        · rw [if_neg h17]
          by_cases h1 : h.protocol = 1
          · rw [if_pos h1]; exact ⟨_, rfl⟩
          · rw [if_neg h1]; exact ⟨_, rfl⟩
    have hnp : newPacketIPv4 l.payload = [PLayer.ipv4 h, tr] := by
      unfold newPacketIPv4
      rw [hdec]
      dsimp only
      rw [htr]
    simp only [parseICMPv4Layer, hq, he, Bool.false_eq_true, if_false, if_true, hnp]
    rw [if_pos hv]
  · intro ind hp
    obtain ⟨hl, hcase⟩ := parse_ok_inv l ind hp
    rcases hcase with ⟨hq1, hE1, hT1⟩ | ⟨hq1, he1, h, tr, rest, hnp, hv, hE, hT⟩
    · rw [hq1] at hq; cases hq
    · obtain ⟨h0, hdec, hp0, hdt, hrest⟩ := newPacketIPv4_cons_inv _ _ _ _ hnp
      injection hp0 with hh
      subst hh
      refine ⟨h, tr, hdec, hE, hv, hT, ?_, ?_, ?_⟩
      · intro hp6
        unfold decodeEmbTransport at hdt
        by_cases hl8 : (l.payload.drop (h.ihl * 4)).length < 8
        · rw [if_pos hl8] at hdt; cases hdt
        · rw [if_neg hl8, if_pos hp6] at hdt
          cases hdt
          simp [embTransportLayerType, hT, layerTypeOf]
      · intro hp17
        unfold decodeEmbTransport at hdt
        by_cases hl8 : (l.payload.drop (h.ihl * 4)).length < 8
        · rw [if_pos hl8] at hdt; cases hdt
        · rw [if_neg hl8, if_neg (by omega), if_pos hp17] at hdt
          cases hdt
          simp [embTransportLayerType, hT, layerTypeOf]
      · intro hp1
        unfold decodeEmbTransport at hdt
        by_cases hl8 : (l.payload.drop (h.ihl * 4)).length < 8
        · rw [if_pos hl8] at hdt; cases hdt
        · rw [if_neg hl8, if_neg (by omega), if_neg (by omega), if_pos hp1] at hdt
          cases hdt
          simp [embTransportLayerType, hT, layerTypeOf]

/-- Witness for claim C6: a destination unreachable message with a 3-byte
payload holds no complete IPv4 header and is rejected with the
MissingNetworkLayer error. -/
theorem parse_error_message_decode_witness :
    parseICMPv4Layer exampleShortError = .error .missingNetworkLayer :=
  (parse_error_message_decode exampleShortError (by decide)).1 (by decide)

/-- Claim C7: a destination unreachable message embedding a full 20-byte
IPv4 header with protocol TCP followed by exactly 8 transport bytes parses
successfully and the embedded port accessors return the ports carried in
those bytes, while the same message with fewer than 8 embedded transport
bytes fails with the MissingTransportLayer error. -/
theorem parse_truncated_embedded_tcp
    (code ock oid oseq tos l1 l2 i1 i2 f1 f2 ttl c1 c2
      s0 s1 s2 s3 d0 d1 d2 d3 : Nat) (tb : List Nat) (hcode : code < 256) :
    (tb.length = 8 →
      ∃ ind, parseICMPv4Layer (mkDestUnreachTCP code ock oid oseq tos l1 l2 i1 i2 f1 f2
          ttl c1 c2 s0 s1 s2 s3 d0 d1 d2 d3 tb) = .ok ind ∧
        embSrcPort ind = .ok (byteAt tb 0 * 256 + byteAt tb 1) ∧
        embDstPort ind = .ok (byteAt tb 2 * 256 + byteAt tb 3)) ∧
    (tb.length < 8 →
      parseICMPv4Layer (mkDestUnreachTCP code ock oid oseq tos l1 l2 i1 i2 f1 f2
          ttl c1 c2 s0 s1 s2 s3 d0 d1 d2 d3 tb) = .error .missingTransportLayer) := by
  have ht3 : typeOfTypeCode (mkDestUnreachTCP code ock oid oseq tos l1 l2 i1 i2 f1 f2
      ttl c1 c2 s0 s1 s2 s3 d0 d1 d2 d3 tb).typeCode = 3 := by
    unfold mkDestUnreachTCP typeOfTypeCode
    dsimp only
    omega
  have hdec : decodeEmbIPv4Header ([69, tos, l1, l2, i1, i2, f1, f2, ttl, 6, c1, c2,
      s0, s1, s2, s3, d0, d1, d2, d3] ++ tb) =
      some (embHeaderOfDestUnreach tos l1 l2 i1 i2 f1 f2 ttl c1 c2
        s0 s1 s2 s3 d0 d1 d2 d3) := by
    unfold decodeEmbIPv4Header embHeaderOfDestUnreach
    rw [if_pos]
    · simp only [byteAt, word16At, List.cons_append, List.nil_append,
        List.get?_cons_zero, List.get?_cons_succ, Option.getD_some,
        List.drop_succ_cons, List.drop_nil, List.take_succ_cons]
      norm_num
    · refine ⟨?_, ?_, ?_⟩ <;>
        simp only [byteAt, List.cons_append, List.get?_cons_zero, Option.getD_some,
          List.length_append, List.length_cons, List.length_nil] <;> omega
  have hdrop : List.drop ((embHeaderOfDestUnreach tos l1 l2 i1 i2 f1 f2 ttl c1 c2
      s0 s1 s2 s3 d0 d1 d2 d3).ihl * 4) ([69, tos, l1, l2, i1, i2, f1, f2, ttl, 6, c1, c2,
      s0, s1, s2, s3, d0, d1, d2, d3] ++ tb) = tb := rfl
  have hproto : (embHeaderOfDestUnreach tos l1 l2 i1 i2 f1 f2 ttl c1 c2
      s0 s1 s2 s3 d0 d1 d2 d3).protocol = 6 := rfl
  constructor
  · intro h8
    have htr : decodeEmbTransport 6 tb = some (PLayer.tcp (embTCPOfBytes tb)) := by
      unfold decodeEmbTransport embTCPOfBytes
      rw [if_neg (by omega), if_pos rfl]
    have hnp : newPacketIPv4 ([69, tos, l1, l2, i1, i2, f1, f2, ttl, 6, c1, c2,
        s0, s1, s2, s3, d0, d1, d2, d3] ++ tb) =
        [PLayer.ipv4 (embHeaderOfDestUnreach tos l1 l2 i1 i2 f1 f2 ttl c1 c2
          s0 s1 s2 s3 d0 d1 d2 d3), PLayer.tcp (embTCPOfBytes tb)] := by
      unfold newPacketIPv4
      rw [hdec]
      dsimp only
      rw [hdrop, hproto, htr]
    refine ⟨destUnreachTCPIndicator code ock oid oseq tos l1 l2 i1 i2 f1 f2
      ttl c1 c2 s0 s1 s2 s3 d0 d1 d2 d3 tb, ?_, rfl, rfl⟩
    unfold destUnreachTCPIndicator
    simp only [parseICMPv4Layer, ht3]
    norm_num [isQueryType, isErrorType]
    have hpl : (mkDestUnreachTCP code ock oid oseq tos l1 l2 i1 i2 f1 f2
        ttl c1 c2 s0 s1 s2 s3 d0 d1 d2 d3 tb).payload =
        [69, tos, l1, l2, i1, i2, f1, f2, ttl, 6, c1, c2,
          s0, s1, s2, s3, d0, d1, d2, d3] ++ tb := rfl
    rw [hpl, hnp]
    dsimp only
    have hver : (embHeaderOfDestUnreach tos l1 l2 i1 i2 f1 f2 ttl c1 c2
        s0 s1 s2 s3 d0 d1 d2 d3).version = 4 := rfl
    rw [if_pos hver]
  · intro hlt
    have htr : decodeEmbTransport 6 tb = none := by
      unfold decodeEmbTransport
      rw [if_pos hlt]
    have hnp : newPacketIPv4 ([69, tos, l1, l2, i1, i2, f1, f2, ttl, 6, c1, c2,
        s0, s1, s2, s3, d0, d1, d2, d3] ++ tb) =
        [PLayer.ipv4 (embHeaderOfDestUnreach tos l1 l2 i1 i2 f1 f2 ttl c1 c2
          s0 s1 s2 s3 d0 d1 d2 d3)] := by
      unfold newPacketIPv4
      rw [hdec]
      dsimp only
      rw [hdrop, hproto, htr]
    simp only [parseICMPv4Layer, ht3]
    norm_num [isQueryType, isErrorType]
    have hpl : (mkDestUnreachTCP code ock oid oseq tos l1 l2 i1 i2 f1 f2
        ttl c1 c2 s0 s1 s2 s3 d0 d1 d2 d3 tb).payload =
        [69, tos, l1, l2, i1, i2, f1, f2, ttl, 6, c1, c2,
          s0, s1, s2, s3, d0, d1, d2, d3] ++ tb := rfl
    rw [hpl, hnp]

/-- Witness for claim C7: with embedded transport bytes 171 205 0 80 plus
four zero bytes the embedded ports are 43981 and 80, and a 3-byte embedded
transport fails with MissingTransportLayer. -/
theorem parse_truncated_embedded_tcp_witness :
    (∃ ind, parseICMPv4Layer (mkDestUnreachTCP 1 0 0 0 0 0 28 0 0 0 0 64 0 0
        10 0 0 1 10 0 0 2 [171, 205, 0, 80, 0, 0, 0, 0]) = .ok ind ∧
      embSrcPort ind = .ok 43981 ∧ embDstPort ind = .ok 80) ∧
    parseICMPv4Layer (mkDestUnreachTCP 1 0 0 0 0 0 28 0 0 0 0 64 0 0
        10 0 0 1 10 0 0 2 [1, 2, 3]) = .error .missingTransportLayer := by
  refine ⟨?_, (parse_truncated_embedded_tcp 1 0 0 0 0 0 28 0 0 0 0 64 0 0
    10 0 0 1 10 0 0 2 [1, 2, 3] (by decide)).2 (by decide)⟩
  obtain ⟨ind, h1, h2, h3⟩ := (parse_truncated_embedded_tcp 1 0 0 0 0 0 28 0 0 0 0 64 0 0
    10 0 0 1 10 0 0 2 [171, 205, 0, 80, 0, 0, 0, 0] (by decide)).1 (by decide)
  exact ⟨ind, h1, h2.trans (by decide), h3.trans (by decide)⟩


/-- Claim C8: the raw serialization mode writes every field exactly as
populated, reproducing every pre-populated checksum and length field even
when wrong, while the computing mode is entirely independent of every
pre-populated checksum and length dependent field and overwrites them with
values recomputed from the final byte layout, shown explicitly for an IPv4
header in front of a payload. -/
theorem serialize_raw_vs_computed :
    (∀ stack : List SLayer, serializeRaw stack = .ok (rawRender stack)) ∧
    (∀ stack : List SLayer, serialize (stack.map scrubLayer) = serialize stack) ∧
    (∀ (h : IPv4Layer) (p : List Nat),
      serialize [SLayer.ipv4 h, SLayer.payload p] = .ok (ipv4ComputedHeader h p ++ p)) := by
  refine ⟨?_, ?_, ?_⟩
  · intro stack
    induction stack with
    | nil => rfl
    | cons l rest ih =>
      unfold serializeRaw at ih ⊢
      unfold serializeLayersModel
      rw [ih]
      dsimp only
      cases l with
      | ethernet s d ty => simp [serializeToModel, rawRender, rawLayerBytes, List.append_assoc]
      | payload b => simp [serializeToModel, rawRender, rawLayerBytes, List.append_assoc]
      | ipv4 h => simp [serializeToModel, rawRender, rawLayerBytes, List.append_assoc]
      | udp u => simp [serializeToModel, rawRender, rawLayerBytes, List.append_assoc]
      | tcp t => simp [serializeToModel, rawRender, rawLayerBytes, List.append_assoc]
      | icmpv4 m => simp [serializeToModel, rawRender, rawLayerBytes, List.append_assoc]
  · intro stack
    unfold serialize
    induction stack with
    | nil => rfl
    | cons l rest ih =>
      dsimp only [List.map]
      unfold serializeLayersModel
      rw [ih]
      cases hrec : serializeLayersModel { computeChecksums := true, fixLengths := true } rest with
      | error e => rfl
      | ok payload =>
        dsimp only
        cases l with
        | ethernet s d ty => rfl
        | payload b => rfl
        | ipv4 h => rfl
        | icmpv4 m => rfl
        | udp u =>
          cases hph : u.pseudoheader with
          | none => simp [serializeToModel, scrubLayer, hph]
          | some pr => simp [serializeToModel, scrubLayer, hph]
        | tcp t =>
          cases hph : t.pseudoheader with
          | none => simp [serializeToModel, scrubLayer, hph, tcpFlagsByte]
          | some pr => simp [serializeToModel, scrubLayer, hph, tcpFlagsByte]
  · intro h p
    simp [serialize, serializeLayersModel, serializeToModel, ipv4ComputedHeader,
      List.append_assoc]

end Pcap
